import Mathlib

/-!
Shallow embedding of the request-orchestration and result-visualization
logic of `pharma-ui/app/page.tsx`.

JavaScript strings are modelled as Lean `String`s; `toLowerCase` is
modelled for the ASCII range (all catalog and severity vocabulary is
ASCII), `Array.prototype.includes`/`String.prototype.includes` by
membership/substring tests on character lists, and `||` by an explicit
falsy-default combinator (`0` is falsy in JavaScript).
-/

namespace PharmaUI

/-- Model of `s.toLowerCase()` on ASCII strings: lowercase every character. -/
def jsToLower (s : String) : String :=
  String.mk (s.data.map Char.toLower)

/-- Predicate `charsStartWith sub l`: true when `sub` occurs at the head of `l`. -/
def charsStartWith : List Char → List Char → Bool
  | [], _ => true
  | _ :: _, [] => false
  | a :: as, b :: bs => a == b && charsStartWith as bs

/-- Predicate `charsContain sub l`: true when `sub` occurs contiguously somewhere in `l`. -/
def charsContain (sub : List Char) : List Char → Bool
  | [] => charsStartWith sub []
  | l@(_ :: rest) => charsStartWith sub l || charsContain sub rest

/-- Model of JavaScript `s.includes(sub)`: contiguous substring test. -/
def strIncludes (s sub : String) : Bool :=
  charsContain sub.data s.data

/-- Split a character list at every `,`, keeping empty segments, as
JavaScript `s.split(",")` does. -/
def splitComma : List Char → List (List Char)
  | [] => [[]]
  | c :: rest =>
    if c = ',' then [] :: splitComma rest
    else
      match splitComma rest with
      | [] => [[c]]
      | h :: t => (c :: h) :: t

/-- Model of JavaScript `s.split(",")`. -/
def jsSplitComma (s : String) : List String :=
  (splitComma s.data).map String.mk

/-- Model of JavaScript `s.trim()`: strip whitespace from both ends. -/
def jsTrim (s : String) : String :=
  String.mk (((s.data.dropWhile Char.isWhitespace).reverse.dropWhile
    Char.isWhitespace).reverse)

/-- Model of JavaScript `arr.join(",")`. -/
def jsJoinComma : List String → String
  | [] => ""
  | [d] => d
  | d :: rest => d ++ "," ++ jsJoinComma rest

/-- Model of JavaScript `v || d` where `v` is an `Int` lookup result:
`undefined` (`none`) and the falsy number `0` both fall through to `d`. -/
def jsOrDefault (v : Option Int) (d : Int) : Int :=
  match v with
  | none => d
  | some x => if x = 0 then d else x

/-- The `angleMap` record of `RiskGauge` (page.tsx lines 12-18). -/
def angleMap (s : String) : Option Int :=
  if s = "none" then some (-75)
  else if s = "low" then some (-30)
  else if s = "moderate" then some 0
  else if s = "high" then some 45
  else if s = "critical" then some 75
  else none

/-- The `RiskGauge` rotation computation (page.tsx line 19):
`angleMap[severity?.toLowerCase()] || -75`. -/
def severityToAngle (severity : String) : Int :=
  jsOrDefault (angleMap (jsToLower severity)) (-75)

/-- The `MetabolismSpectrum` component's `activeIndex` computation (page.tsx lines 78-85). -/
def phenotypeToIndex (phenotype : String) : Nat :=
  let pLower := jsToLower phenotype
  if strIncludes pLower "poor" then 0
  else if strIncludes pLower "intermediate" then 1
  else if strIncludes pLower "normal" then 2
  else if strIncludes pLower "rapid" then 3
  else if strIncludes pLower "ultrarapid" then 4
  else 2

/-- The fixed drug catalog `AVAILABLE_DRUGS` (page.tsx lines 140-143). -/
def AVAILABLE_DRUGS : List String :=
  ["CLOPIDOGREL", "SIMVASTATIN", "CODEINE",
   "WARFARIN", "AZATHIOPRINE", "FLUOROURACIL"]

/-- The derived suggestion list (page.tsx lines 145-147):
`AVAILABLE_DRUGS.filter(d => d.toLowerCase().includes(drugInput.toLowerCase())
&& !selectedDrugs.includes(d))`. -/
def suggestedDrugs (selectedDrugs : List String) (drugInput : String) : List String :=
  AVAILABLE_DRUGS.filter (fun d =>
    strIncludes (jsToLower d) (jsToLower drugInput) && !(selectedDrugs.contains d))

/-- The `addDrug` handler on the selection list (page.tsx lines 149-154): append iff absent. -/
def addDrug (selectedDrugs : List String) (drugToAdd : String) : List String :=
  if selectedDrugs.contains drugToAdd then selectedDrugs
  else selectedDrugs ++ [drugToAdd]

/-- The `removeDrug` handler (page.tsx lines 156-158): `filter(d => d !== drugToRemove)`. -/
def removeDrug (selectedDrugs : List String) (drugToRemove : String) : List String :=
  selectedDrugs.filter (fun d => d != drugToRemove)

/-- The mutable component state of `Home` that the orchestration logic touches:
`file`, `selectedDrugs`, `drugInput`, `result`, `loading`, `activeDemo`
(page.tsx lines 129-138). The opaque response payload and the file are
modelled by their observable identities (the JSON value as a string, the
file by its name). -/
structure UIState where
  file : Option String
  selectedDrugs : List String
  drugInput : String
  result : Option String
  loading : Bool
  activeDemo : Option String
  deriving DecidableEq, Repr

/-- The `addDrug` handler at the state level: updates the selection and always clears
the free-text input (page.tsx line 153). -/
def addDrugState (s : UIState) (d : String) : UIState :=
  { s with selectedDrugs := addDrug s.selectedDrugs d, drugInput := "" }

/-- The Enter-key confirm handler of the tag input (page.tsx lines 464-469):
if at least one suggestion exists, `addDrug(suggestedDrugs[0])`; otherwise
nothing happens. -/
def confirmEnter (s : UIState) : UIState :=
  match suggestedDrugs s.selectedDrugs s.drugInput with
  | [] => s
  | d :: _ => addDrugState s d

/-- Outcome of the synchronous prefix of `handleAnalyze` (page.tsx lines
232-243), up to the `fetch` call: either a precondition failure (alert,
early return, state untouched, no request) or the updated state together
with the outbound request fields `(vcf file name, drugs)`. -/
structure StartResult where
  state : UIState
  request : Option (String × String)
  alertMissingFile : Bool
  alertNoDrugs : Bool
  deriving DecidableEq, Repr

/-- Synchronous prefix of `handleAnalyze` (page.tsx lines 232-243):
precondition checks fire an alert and return before any state change or
network call; otherwise `loading := true`, `result := null`,
`activeDemo := null`, and the multipart fields are built with
`drugs = selectedDrugs.join(",")`. -/
def handleAnalyzeStart (s : UIState) : StartResult :=
  match s.file with
  | none => ⟨s, none, true, false⟩
  | some f =>
    if s.selectedDrugs.length = 0 then ⟨s, none, false, true⟩
    else
      ⟨{ s with loading := true, result := none, activeDemo := none },
       some (f, jsJoinComma s.selectedDrugs), false, false⟩

/-- Resumption of `handleAnalyze` when its network call settles (page.tsx
lines 244-255): on a decoded response `setResult(data)`, on a transport
failure only an alert; either way `setLoading(false)` runs last. -/
def handleAnalyzeFinish (s : UIState) (resp : Option String) : UIState :=
  match resp with
  | some data => { s with result := some data, loading := false }
  | none => { s with loading := false }

/-- One demo preset row of the `demos` table (page.tsx lines 177-199). -/
structure DemoEntry where
  drug : String
  file : String
  label : String
  deriving DecidableEq, Repr

/-- The `demos` lookup table of `loadDemoPatient` (page.tsx lines 177-201). -/
def demos (t : String) : Option DemoEntry :=
  if t = "normal" then
    some ⟨"CLOPIDOGREL", "normal_metabolizer.vcf", "Normal Metabolizer"⟩
  else if t = "intermediate" then
    some ⟨"WARFARIN, CODEINE", "intermediate_metabolizer.vcf", "Intermediate Risk"⟩
  else if t = "poor" then
    some ⟨"CODEINE", "poor_metabolizer.vcf", "Poor Metabolizer"⟩
  else if t = "rapid" then
    some ⟨"CODEINE", "rapid_metabolizer.vcf", "Rapid Metabolizer"⟩
  else none

/-- Outcome of the synchronous prefix of `loadDemoPatient` (page.tsx lines
172-207), up to the sample-file `fetch`: the updated state, and — when the
preset is known — the pair `(sample file name, drugs form field)` of the
fetch-and-submit continuation; `none` means the function returned with no
fetch ever issued. -/
structure DemoStartResult where
  state : UIState
  fetch : Option (String × String)
  deriving DecidableEq, Repr

/-- Synchronous prefix of `loadDemoPatient` (page.tsx lines 172-207):
unconditionally `loading := true`, `result := null`, `activeDemo := type`;
an unknown preset returns immediately; a known one replaces the selection
with `demo.drug.split(",").map(trim)` and proceeds to fetch the sample.
The `drugs` form field of the demo submission is the raw `demo.drug`
string (page.tsx line 215). -/
def loadDemoPatientStart (s : UIState) (t : String) : DemoStartResult :=
  let s1 := { s with loading := true, result := none, activeDemo := some t }
  match demos t with
  | none => ⟨s1, none⟩
  | some demo =>
    ⟨{ s1 with selectedDrugs := (jsSplitComma demo.drug).map jsTrim },
     some (demo.file, demo.drug)⟩

/-- Resumption of `loadDemoPatient` when the sample fetch fails (page.tsx
lines 223-229): the `catch` block only alerts, then `setLoading(false)`.
`result` keeps the `null` written at the start; `file` is untouched. -/
def demoSampleFail (s : UIState) : UIState :=
  { s with loading := false }

/-- Resumption of `loadDemoPatient` when the sample fetch succeeds (page.tsx
lines 209-216): the fetched blob becomes the pending file, then the
analysis request is posted with `drugs = demo.drug`. Returns the updated
state and the outbound request fields. -/
def demoSampleOk (s : UIState) (fileName drugField : String) : UIState × (String × String) :=
  ({ s with file := some fileName }, (fileName, drugField))

/-- An interleaving event of the submission flow. `issue id` runs the
synchronous prefix of `handleAnalyze`; `arrive id data` runs the resumption
for the response of submission `id`. The `id` records which submission a
response belongs to; the code's resumption never consults it — page.tsx
has no sequence-number guard. -/
inductive Ev where
  | issue (id : Nat)
  | arrive (id : Nat) (data : String)
  deriving DecidableEq, Repr

/-- The state transition of one event, exactly as the handlers in page.tsx
perform it: an issued submission runs `handleAnalyzeStart`, and an arriving
response runs `handleAnalyzeFinish` unconditionally, whatever submission it
belongs to (page.tsx lines 249-255). -/
def applyEv (s : UIState) : Ev → UIState
  | .issue _ => (handleAnalyzeStart s).state
  | .arrive _ d => handleAnalyzeFinish s (some d)

/-- Run a whole interleaving of issues and arrivals. -/
def runTrace (s : UIState) (es : List Ev) : UIState :=
  es.foldl applyEv s

/-- One user operation on the drug selection. -/
inductive DrugOp where
  | add (d : String)
  | remove (d : String)
  deriving DecidableEq, Repr

/-- Apply one selection operation via the page.tsx handlers. -/
def applyOp (sel : List String) : DrugOp → List String
  | .add d => addDrug sel d
  | .remove d => removeDrug sel d

/-- Apply a sequence of selection operations. -/
def applyOps (sel : List String) (ops : List DrugOp) : List String :=
  ops.foldl applyOp sel

/-- The initial component state of `Home` (page.tsx lines 129-138). -/
def initState : UIState :=
  { file := none, selectedDrugs := ["CLOPIDOGREL", "WARFARIN"], drugInput := "",
    result := none, loading := false, activeDemo := none }

/-! ### Characterizations of the string helpers -/

theorem charsStartWith_iff (sub l : List Char) :
    charsStartWith sub l = true ↔ sub <+: l := by
  induction sub generalizing l with
  | nil => simp [charsStartWith]
  | cons a as ih =>
    cases l with
    | nil => simp [charsStartWith]
    | cons b bs =>
      rw [charsStartWith, List.cons_prefix_cons]
      simp [ih, Bool.and_eq_true, beq_iff_eq]

theorem charsContain_iff (sub l : List Char) :
    charsContain sub l = true ↔ sub <:+: l := by
  induction l with
  | nil =>
    rw [charsContain, charsStartWith_iff]
    simp
  | cons b bs ih =>
    rw [charsContain]
    simp [charsStartWith_iff, ih, List.infix_cons_iff]

theorem strIncludes_iff (s sub : String) :
    strIncludes s sub = true ↔ sub.data <:+: s.data :=
  charsContain_iff sub.data s.data

theorem strIncludes_empty (s : String) : strIncludes s "" = true := by
  rw [strIncludes_iff]
  exact List.nil_infix

/-- Any string containing `"ultrarapid"` also contains `"rapid"`. -/
theorem rapid_of_ultrarapid (p : String) (h : strIncludes p "ultrarapid" = true) :
    strIncludes p "rapid" = true := by
  rw [strIncludes_iff] at h ⊢
  have hsub : "rapid".data <:+: "ultrarapid".data := ⟨"ultra".data, [], by decide⟩
  exact hsub.trans h

/-! ### Helper lemmas about the selection operations -/

theorem addDrug_of_not_mem (sel : List String) (d : String) (h : d ∉ sel) :
    addDrug sel d = sel ++ [d] := by
  simp [addDrug, List.contains, h]

theorem addDrug_of_mem (sel : List String) (d : String) (h : d ∈ sel) :
    addDrug sel d = sel := by
  simp [addDrug, List.contains, h]

theorem applyOp_nodup (sel : List String) (op : DrugOp) (h : sel.Nodup) :
    (applyOp sel op).Nodup := by
  cases op with
  | add d =>
    by_cases hd : d ∈ sel
    · rw [applyOp, addDrug_of_mem sel d hd]; exact h
    · rw [applyOp, addDrug_of_not_mem sel d hd]
      simp [List.nodup_append, h, hd]
  | remove d =>
    exact h.filter _

/-! ### Concrete states used by the claim instances -/

/-- A state in which a previous analysis has succeeded. -/
def priorSuccess : UIState :=
  { file := some "old.vcf", selectedDrugs := ["CLOPIDOGREL"], drugInput := "",
    result := some "priorPayload", loading := false, activeDemo := none }

/-- A state ready for a manual submission. -/
def readyState : UIState :=
  { file := some "patient.vcf", selectedDrugs := ["CODEINE"], drugInput := "",
    result := none, loading := false, activeDemo := none }

end PharmaUI

namespace PharmaUI

/-! ### Claim theorems -/

/-- C1 counterexample: submission 1 is issued, then submission 2; response
`payloadB` of submission 2 arrives first, the stale response `payloadA` of
submission 1 arrives last. The final outcome is `payloadA`, not
submission 2's `payloadB`: the stale response is applied, not discarded,
contradicting the claim. -/
theorem stale_response_wins_counterexample :
    (runTrace readyState
        [Ev.issue 1, Ev.issue 2, Ev.arrive 2 "payloadB", Ev.arrive 1 "payloadA"]).result
      = some "payloadA" ∧
    (runTrace readyState
        [Ev.issue 1, Ev.issue 2, Ev.arrive 2 "payloadB", Ev.arrive 1 "payloadA"]).result
      ≠ some "payloadB" := by decide

/-- C1 (amended): the handlers contain no sequence guard, so the final
AnalysisOutcome equals the payload of whichever response arrives last,
regardless of which submission it belongs to (last-response-wins): a
response of a superseded submission is applied like any other. -/
theorem last_arrival_wins (s : UIState) (pre : List Ev) (id : Nat) (d : String) :
    (runTrace s (pre ++ [Ev.arrive id d])).result = some d := by
  rw [runTrace, List.foldl_append]
  rfl

/-- C2 counterexample: loading the `"poor"` demo preset over a previously
successful outcome and failing at the sample fetch leaves the outcome
empty — the prior result was cleared at the start of loading, so it is NOT
left unchanged at its prior value. -/
theorem demo_fail_loses_prior_result_counterexample :
    priorSuccess.result = some "priorPayload" ∧
    (demoSampleFail (loadDemoPatientStart priorSuccess "poor").state).result = none ∧
    (demoSampleFail (loadDemoPatientStart priorSuccess "poor").state).result
      ≠ priorSuccess.result := by decide

/-- C2 (amended): when demo loading fails because the sample cannot be
retrieved, the AnalysisOutcome ends empty — it was cleared unconditionally
at the start of loading and the failure path never restores it — the
loading flag is reset, and the pending file is untouched. A previously
successful result is therefore replaced by the empty outcome, not
preserved. -/
theorem demo_fail_result_empty (s : UIState) (t : String) (d : DemoEntry)
    (h : demos t = some d) :
    (demoSampleFail (loadDemoPatientStart s t).state).result = none ∧
    (demoSampleFail (loadDemoPatientStart s t).state).loading = false ∧
    (demoSampleFail (loadDemoPatientStart s t).state).file = s.file := by
  simp [loadDemoPatientStart, demoSampleFail, h]

/-- C2 witness: the amended statement instantiated at the `"poor"` preset
over a state holding a previous success. -/
theorem demo_fail_result_empty_witness :
    (demoSampleFail (loadDemoPatientStart priorSuccess "poor").state).result = none ∧
    (demoSampleFail (loadDemoPatientStart priorSuccess "poor").state).loading = false ∧
    (demoSampleFail (loadDemoPatientStart priorSuccess "poor").state).file =
      priorSuccess.file :=
  demo_fail_result_empty priorSuccess "poor"
    ⟨"CODEINE", "poor_metabolizer.vcf", "Poor Metabolizer"⟩ (by decide)

/-- C3: the code's own `angleMap` table assigns `moderate ↦ 0`, but the
JavaScript lookup `angleMap[s] || -75` treats the angle `0` as falsy, so a
`"moderate"` severity (any casing) renders at the `none` angle `-75`,
breaking the claimed `moderate = 0` value and the claimed monotonicity;
every other severity and the unrecognized-value default behave as
claimed. -/
theorem severityToAngle_moderate_collapses :
    angleMap "moderate" = some 0 ∧
    severityToAngle "moderate" = -75 ∧
    severityToAngle "MODERATE" = -75 ∧
    severityToAngle "none" = -75 ∧
    severityToAngle "low" = -30 ∧
    severityToAngle "high" = 45 ∧
    severityToAngle "critical" = 75 ∧
    severityToAngle "CRITICAL" = 75 ∧
    severityToAngle "unknown-value" = -75 := by decide

/-- C4: the spectrum classifier checks `includes("rapid")` BEFORE
`includes("ultrarapid")`, and every string containing `"ultrarapid"`
contains `"rapid"`, so `"Ultrarapid Metabolizer"` classifies as 3 — not 4
as claimed — and the ultrarapid branch is unreachable: no input at all
yields index 4. The remaining classes behave as claimed. -/
theorem phenotypeToIndex_ultrarapid_shadowed :
    phenotypeToIndex "Poor Metabolizer" = 0 ∧
    phenotypeToIndex "Intermediate Metabolizer" = 1 ∧
    phenotypeToIndex "Normal Metabolizer" = 2 ∧
    phenotypeToIndex "Rapid Metabolizer" = 3 ∧
    phenotypeToIndex "Ultrarapid Metabolizer" = 3 ∧
    phenotypeToIndex "something else" = 2 ∧
    ∀ p : String, phenotypeToIndex p < 4 := by
  refine ⟨by decide, by decide, by decide, by decide, by decide, by decide, ?_⟩
  intro p
  have hu : strIncludes (jsToLower p) "ultrarapid" = true →
      strIncludes (jsToLower p) "rapid" = true := rapid_of_ultrarapid _
  simp only [phenotypeToIndex]
  split_ifs <;> first | omega | simp_all

/-- C5 counterexample: for the `"intermediate"` preset, the demo flow sends
the raw preset string `"WARFARIN, CODEINE"` (with a space) as the `drugs`
field, while the manual submission path, with the very selection and file
that demo loading produced, would send `"WARFARIN,CODEINE"`: the demo flow
does NOT produce the same request as the manual path. -/
theorem demo_manual_divergence_counterexample :
    (loadDemoPatientStart initState "intermediate").fetch =
      some ("intermediate_metabolizer.vcf", "WARFARIN, CODEINE") ∧
    (handleAnalyzeStart { (loadDemoPatientStart initState "intermediate").state with
        file := some "intermediate_metabolizer.vcf" }).request =
      some ("intermediate_metabolizer.vcf", "WARFARIN,CODEINE") ∧
    ("WARFARIN, CODEINE" : String) ≠ "WARFARIN,CODEINE" := by decide

/-- C5 (amended): the demo flow builds its own request, whose `drugs` field
is the preset's raw drug string; for the single-drug presets `normal`,
`poor` and `rapid` this coincides with the request the manual path would
produce from the same resulting inputs, but not for `intermediate`, whose
raw string contains a space after the comma. -/
theorem demo_request_matches_manual_single_drug (s : UIState) (t : String)
    (ht : t = "normal" ∨ t = "poor" ∨ t = "rapid") :
    (handleAnalyzeStart { (loadDemoPatientStart s t).state with
        file := (loadDemoPatientStart s t).fetch.map Prod.fst }).request =
      (loadDemoPatientStart s t).fetch := by
  rcases ht with h | h | h <;> subst h <;> rfl

/-- C5 witness: the amended statement instantiated at the `"poor"` preset. -/
theorem demo_request_matches_manual_witness :
    (handleAnalyzeStart { (loadDemoPatientStart initState "poor").state with
        file := (loadDemoPatientStart initState "poor").fetch.map Prod.fst }).request =
      (loadDemoPatientStart initState "poor").fetch :=
  demo_request_matches_manual_single_drug initState "poor" (by decide)

/-- C6 counterexample: with the seeded initial selection and EMPTY input the
suggestion list is every unselected catalog code — not the empty sequence
the claim requires. -/
theorem suggestions_empty_input_counterexample :
    suggestedDrugs ["CLOPIDOGREL", "WARFARIN"] "" =
      ["SIMVASTATIN", "CODEINE", "AZATHIOPRINE", "FLUOROURACIL"] ∧
    suggestedDrugs ["CLOPIDOGREL", "WARFARIN"] "" ≠ [] := by decide

/-- C6 (amended): for every input text, the suggestion list is the
catalog-order-preserving sequence of the catalog codes whose lowercase form
contains the lowercase input as a substring, excluding codes already
selected — in particular it never contains a selected code — but on EMPTY
input it is every catalog code not already selected, not the empty
sequence (only the dropdown rendering is suppressed then). -/
theorem suggestions_spec :
    (∀ (sel : List String) (inp d : String),
      d ∈ suggestedDrugs sel inp ↔
        d ∈ AVAILABLE_DRUGS ∧ strIncludes (jsToLower d) (jsToLower inp) = true ∧ d ∉ sel) ∧
    (∀ (sel : List String) (inp : String),
      (suggestedDrugs sel inp).Sublist AVAILABLE_DRUGS) ∧
    (∀ (sel : List String) (inp d : String), d ∈ sel → d ∉ suggestedDrugs sel inp) ∧
    (∀ sel : List String,
      suggestedDrugs sel "" = AVAILABLE_DRUGS.filter (fun d => !sel.contains d)) := by
  have hmem : ∀ (sel : List String) (inp d : String),
      d ∈ suggestedDrugs sel inp ↔
        d ∈ AVAILABLE_DRUGS ∧ strIncludes (jsToLower d) (jsToLower inp) = true ∧ d ∉ sel := by
    intro sel inp d
    simp [suggestedDrugs, List.mem_filter, List.contains]
  refine ⟨hmem, ?_, ?_, ?_⟩
  · intro sel inp
    exact List.filter_sublist _
  · intro sel inp d hd hmem'
    exact ((hmem sel inp d).mp hmem').2.2 hd
  · intro sel
    refine List.filter_congr ?_
    intro d _
    rw [show jsToLower "" = "" from rfl, strIncludes_empty]
    simp

/-- C6 witness: a selected code is never suggested, instantiated at
`"WARFARIN"` with empty input. -/
theorem suggestions_spec_witness :
    "WARFARIN" ∉ suggestedDrugs ["WARFARIN"] "" :=
  suggestions_spec.2.2.1 ["WARFARIN"] "" "WARFARIN" (by decide)

/-- C7: submitting with no pending file alerts about the missing file, and
submitting with a file but an empty selection alerts about the empty
selection; both precondition failures leave the state untouched (the
loading flag in particular is not raised, so the flow never enters
Pending) and build no request (no network call is attempted). -/
theorem submit_precondition_failures :
    (∀ s : UIState, s.file = none →
      handleAnalyzeStart s = ⟨s, none, true, false⟩) ∧
    (∀ (s : UIState) (f : String), s.file = some f → s.selectedDrugs = [] →
      handleAnalyzeStart s = ⟨s, none, false, true⟩) := by
  constructor
  · intro s h
    simp [handleAnalyzeStart, h]
  · intro s f h h2
    simp [handleAnalyzeStart, h, h2]

/-- C7 witness: both precondition failures at concrete states. -/
theorem submit_precondition_failures_witness :
    handleAnalyzeStart initState = ⟨initState, none, true, false⟩ ∧
    handleAnalyzeStart { initState with file := some "a.vcf", selectedDrugs := [] } =
      ⟨{ initState with file := some "a.vcf", selectedDrugs := [] }, none, false, true⟩ :=
  ⟨submit_precondition_failures.1 initState rfl,
   submit_precondition_failures.2 _ "a.vcf" rfl rfl⟩

/-- C8: starting from any duplicate-free selection, every sequence of
add/remove operations keeps the selection duplicate-free; `addDrug` appends
at the end exactly when the code is absent and is a no-op otherwise; and
`removeDrug` deletes every occurrence of the code while keeping the
remaining codes in their relative order (the result is a sublist of the
input), so the order always reflects the order of first successful add. -/
theorem selection_invariant :
    (∀ (sel : List String) (ops : List DrugOp), sel.Nodup → (applyOps sel ops).Nodup) ∧
    (∀ (sel : List String) (d : String), d ∉ sel → addDrug sel d = sel ++ [d]) ∧
    (∀ (sel : List String) (d : String), d ∈ sel → addDrug sel d = sel) ∧
    (∀ (sel : List String) (d : String), (removeDrug sel d).Sublist sel) ∧
    (∀ (sel : List String) (d : String), d ∉ removeDrug sel d) ∧
    (∀ (sel : List String) (d x : String), x ≠ d → (x ∈ removeDrug sel d ↔ x ∈ sel)) := by
  refine ⟨?_, addDrug_of_not_mem, addDrug_of_mem, ?_, ?_, ?_⟩
  · intro sel ops
    induction ops generalizing sel with
    | nil => intro h; exact h
    | cons op ops ih =>
      intro h
      exact ih (applyOp sel op) (applyOp_nodup sel op h)
  · intro sel d
    exact List.filter_sublist _
  · intro sel d h
    rw [removeDrug] at h
    have := (List.mem_filter.mp h).2
    simp at this
  · intro sel d x hx
    rw [removeDrug]
    simp [List.mem_filter, hx]

/-- C8 witness: the invariant instantiated on a concrete operation
sequence containing a duplicate add and a remove. -/
theorem selection_invariant_witness :
    (applyOps ["CLOPIDOGREL", "WARFARIN"]
      [DrugOp.add "CODEINE", DrugOp.add "CODEINE", DrugOp.remove "WARFARIN"]).Nodup :=
  selection_invariant.1 ["CLOPIDOGREL", "WARFARIN"]
    [DrugOp.add "CODEINE", DrugOp.add "CODEINE", DrugOp.remove "WARFARIN"] (by decide)

/-- C9: confirming with Enter when the suggestion list is empty changes
nothing; confirming when it is non-empty appends exactly its first element
(the first matching catalog code in catalog order, necessarily not yet
selected) to the selection and clears the input. -/
theorem confirm_enter_spec :
    (∀ s : UIState, suggestedDrugs s.selectedDrugs s.drugInput = [] → confirmEnter s = s) ∧
    (∀ (s : UIState) (d : String) (rest : List String),
      suggestedDrugs s.selectedDrugs s.drugInput = d :: rest →
      confirmEnter s =
        { s with selectedDrugs := s.selectedDrugs ++ [d], drugInput := "" }) := by
  constructor
  · intro s h
    rw [confirmEnter, h]
  · intro s d rest h
    have hd : d ∈ suggestedDrugs s.selectedDrugs s.drugInput := by
      rw [h]; exact List.mem_cons_self d rest
    have hnot : d ∉ s.selectedDrugs := by
      have := (List.mem_filter.mp hd).2
      simp [List.contains] at this
      exact this.2
    simp only [confirmEnter, h, addDrugState, addDrug_of_not_mem _ _ hnot]

/-- C9 witness: both confirm cases at concrete states — no match for input
`"xyz"`, and input `"cod"` selecting `"CODEINE"`. -/
theorem confirm_enter_spec_witness :
    confirmEnter { initState with drugInput := "xyz" } =
      { initState with drugInput := "xyz" } ∧
    confirmEnter { initState with drugInput := "cod" } =
      { initState with
        selectedDrugs := initState.selectedDrugs ++ ["CODEINE"],
        drugInput := "" } :=
  ⟨confirm_enter_spec.1 { initState with drugInput := "xyz" } (by decide),
   confirm_enter_spec.2 { initState with drugInput := "cod" } "CODEINE" [] (by decide)⟩

/-- C10: loading a demo preset whose identifier is outside
`{normal, intermediate, poor, rapid}` clears the outcome and raises the
loading flag, then returns with no fetch ever issued (so nothing ever
resets the loading flag), leaving the selection and the pending file
unchanged. -/
theorem demo_unknown_preset (s : UIState) (t : String)
    (h : t ∉ (["normal", "intermediate", "poor", "rapid"] : List String)) :
    loadDemoPatientStart s t =
      ⟨{ s with loading := true, result := none, activeDemo := some t }, none⟩ := by
  have hd : demos t = none := by
    simp only [List.mem_cons, List.not_mem_nil, or_false, not_or] at h
    obtain ⟨h1, h2, h3, h4⟩ := h
    simp [demos, h1, h2, h3, h4]
  simp [loadDemoPatientStart, hd]

/-- C10 witness: the unknown-preset behavior at identifier `"ultrarapid"`. -/
theorem demo_unknown_preset_witness :
    loadDemoPatientStart initState "ultrarapid" =
      ⟨{ initState with
         loading := true, result := none, activeDemo := some "ultrarapid" }, none⟩ :=
  demo_unknown_preset initState "ultrarapid" (by decide)

end PharmaUI
